import Mathlib

/-!
Verification development for the LUNA USB2 stream endpoints
(`luna/gateware/usb/usb2/endpoints/stream.py`).

The combinational decision logic and the registered state of
`USBStreamOutEndpoint.elaborate`, the configuration performed by
`USBStreamInEndpoint.elaborate`, the constructor defaults of
`USBStreamOutEndpoint.__init__`, and the word-to-byte shift-register FSM of
`USBMultibyteStreamInEndpoint.elaborate` are embedded below as executable
Lean functions.  Collaborator modules that are not part of the excerpt
(the `TransactionalizedFIFO` and the `USBInTransferManager`) are modelled
from the specification, as marked in their doc comments.
-/

namespace LunaStream

/-- Modelled from the spec: `TransactionalizedFIFO` (from `luna/gateware/memory.py`,
not part of the source excerpt; only its instantiation and port usage appear in
`USBStreamOutEndpoint.elaborate`).  A FIFO with speculative writes: entries are
appended speculatively, a commit makes all entries written since the last
commit/discard visible to the reader in FIFO order, a discard removes them as if
never written; `space_available` accounts for speculative entries as well, and
the reader only ever observes committed entries. -/
structure TransactionalizedFIFO where
  depth : Nat
  committed : List Nat
  speculative : List Nat
deriving DecidableEq, Repr

namespace TransactionalizedFIFO

/-- Modelled from the spec: remaining capacity, with speculative (uncommitted)
entries occupying space. -/
def space_available (f : TransactionalizedFIFO) : Nat :=
  f.depth - (f.committed.length + f.speculative.length)

/-- Modelled from the spec: the FIFO presents no data to the reader while no
committed entries remain. -/
def empty (f : TransactionalizedFIFO) : Bool :=
  f.committed.isEmpty

/-- Modelled from the spec: the reader sees the oldest committed entry. -/
def read_data (f : TransactionalizedFIFO) : Nat :=
  f.committed.headD 0

/-- Modelled from the spec: a speculative write appends one entry. -/
def writePush (f : TransactionalizedFIFO) (d : Nat) : TransactionalizedFIFO :=
  { f with speculative := f.speculative ++ [d] }

/-- Modelled from the spec: commit makes all speculative entries permanently
visible to the reader, in FIFO order. -/
def commit (f : TransactionalizedFIFO) : TransactionalizedFIFO :=
  { f with committed := f.committed ++ f.speculative, speculative := [] }

/-- Modelled from the spec: discard removes all speculative entries as if they
were never written. -/
def discard (f : TransactionalizedFIFO) : TransactionalizedFIFO :=
  { f with speculative := [] }

/-- Modelled from the spec: advancing the read side drops the oldest committed
entry. -/
def readAdvance (f : TransactionalizedFIFO) : TransactionalizedFIFO :=
  { f with committed := f.committed.tail }

/-- Speculatively write a whole list of entries, oldest first. -/
def writeMany (f : TransactionalizedFIFO) (bs : List Nat) : TransactionalizedFIFO :=
  bs.foldl writePush f

/-- Modelled from the spec: one clock cycle of FIFO port activity, as driven by
the endpoint: a speculative write when `we` is asserted, then a commit or a
discard, then a read advance when the read side is enabled and the FIFO was
presenting data this cycle. -/
def cycle (f : TransactionalizedFIFO) (we : Bool) (wd : Nat)
    (wc wdisc re : Bool) : TransactionalizedFIFO :=
  let f1 := if we then f.writePush wd else f
  let f2 := if wc then f1.commit else if wdisc then f1.discard else f1
  if re && !f.empty then f2.readAdvance else f2

end TransactionalizedFIFO

/-- The token-decoder signals consumed by the OUT endpoint
(`interface.tokenizer` in `USBStreamOutEndpoint.elaborate`). -/
structure TokenizerView where
  endpoint : Nat
  is_out : Bool
  is_ping : Bool
  ready_for_response : Bool
deriving DecidableEq, Repr

/-- The per-cycle inputs of `USBStreamOutEndpoint.elaborate`: the tokenizer
view, the receive-side strobes and stream, the boundary-detector outputs, and
the consumer's `ready`. -/
structure OutInput where
  tokenizer : TokenizerView
  rx_pid_toggle : Bool
  rx_ready_for_response : Bool
  rx_payload : Nat
  rx_valid : Bool
  rx_next : Bool
  rx_first : Bool
  rx_last : Bool
  complete_out : Bool
  invalid_out : Bool
  stream_ready : Bool
deriving DecidableEq, Repr

/-- The registered state of `USBStreamOutEndpoint` plus its FIFO. -/
structure OutState where
  is_first_byte : Bool
  expected_data_toggle : Bool
  fifo : TransactionalizedFIFO
deriving DecidableEq, Repr

/-- The construction-time configuration of `USBStreamOutEndpoint`. -/
structure OutConfig where
  endpoint_number : Nat
  max_packet_size : Nat
  buffer_size : Nat
deriving DecidableEq, Repr

/-- `USBStreamOutEndpoint.__init__`: stores the endpoint number and maximum
packet size, and defaults the buffer size to twice the maximum packet size when
none is given.  The constructor is total: it performs no validation. -/
def USBStreamOutEndpoint.init (endpoint_number max_packet_size : Nat)
    (buffer_size : Option Nat) : OutConfig :=
  { endpoint_number := endpoint_number
    max_packet_size := max_packet_size
    buffer_size := buffer_size.getD (max_packet_size * 2) }

namespace OutEndpoint

/-- Combinational `endpoint_number_matches` (stream.py line 330). -/
def endpoint_number_matches (cfg : OutConfig) (i : OutInput) : Bool :=
  i.tokenizer.endpoint == cfg.endpoint_number

/-- Combinational `targeting_endpoint` (stream.py line 331). -/
def targeting_endpoint (cfg : OutConfig) (i : OutInput) : Bool :=
  endpoint_number_matches cfg i && i.tokenizer.is_out

/-- Combinational `expected_pid_match` (stream.py line 333). -/
def expected_pid_match (s : OutState) (i : OutInput) : Bool :=
  i.rx_pid_toggle == s.expected_data_toggle

/-- Combinational `sufficient_space` (stream.py line 334). -/
def sufficient_space (cfg : OutConfig) (s : OutState) : Bool :=
  cfg.max_packet_size ≤ s.fifo.space_available

/-- Combinational `ping_response_requested` (stream.py line 336). -/
def ping_response_requested (cfg : OutConfig) (i : OutInput) : Bool :=
  endpoint_number_matches cfg i && i.tokenizer.is_ping && i.tokenizer.ready_for_response

/-- Combinational `data_response_requested` (stream.py line 337). -/
def data_response_requested (cfg : OutConfig) (i : OutInput) : Bool :=
  targeting_endpoint cfg i && i.tokenizer.is_out && i.rx_ready_for_response

/-- Combinational `okay_to_receive` (stream.py line 339). -/
def okay_to_receive (cfg : OutConfig) (s : OutState) (i : OutInput) : Bool :=
  targeting_endpoint cfg i && sufficient_space cfg s && expected_pid_match s i

/-- Combinational `should_skip` (stream.py line 340). -/
def should_skip (cfg : OutConfig) (s : OutState) (i : OutInput) : Bool :=
  targeting_endpoint cfg i && !expected_pid_match s i

/-- Combinational ACK output (stream.py lines 358-362). -/
def ack (cfg : OutConfig) (s : OutState) (i : OutInput) : Bool :=
  (data_response_requested cfg i && okay_to_receive cfg s i) ||
  (ping_response_requested cfg i && okay_to_receive cfg s i) ||
  (data_response_requested cfg i && should_skip cfg s i)

/-- Combinational NAK output (stream.py lines 365-368). -/
def nak (cfg : OutConfig) (s : OutState) (i : OutInput) : Bool :=
  (data_response_requested cfg i && !okay_to_receive cfg s i && !should_skip cfg s i) ||
  (ping_response_requested cfg i && !okay_to_receive cfg s i)

/-- The 10-bit FIFO write word: bits 0-7 the payload byte, bit 8 the
boundary-detector `last`, bit 9 its `first` (stream.py lines 346-348). -/
def write_data (i : OutInput) : Nat :=
  i.rx_payload % 256 + (if i.rx_last then 256 else 0) + (if i.rx_first then 512 else 0)

/-- Combinational FIFO `write_en` (stream.py line 349). -/
def write_en (cfg : OutConfig) (s : OutState) (i : OutInput) : Bool :=
  okay_to_receive cfg s i && i.rx_next && i.rx_valid

/-- Combinational FIFO `write_commit` (stream.py line 352). -/
def write_commit (cfg : OutConfig) (i : OutInput) : Bool :=
  targeting_endpoint cfg i && i.complete_out

/-- Combinational FIFO `write_discard` (stream.py line 353). -/
def write_discard (cfg : OutConfig) (i : OutInput) : Bool :=
  targeting_endpoint cfg i && i.invalid_out

/-- Combinational consumer `stream.valid` (stream.py line 372). -/
def stream_valid (s : OutState) : Bool :=
  !s.fifo.empty

/-- Combinational consumer `stream.payload` (stream.py line 373). -/
def stream_payload (s : OutState) : Nat :=
  s.fifo.read_data % 256

/-- Combinational consumer `stream.last`, bit 8 of the FIFO read word
(stream.py line 377). -/
def stream_last (s : OutState) : Bool :=
  s.fifo.read_data / 256 % 2 == 1

/-- Combinational consumer `stream.first`, bit 9 of the FIFO read word
(stream.py line 378). -/
def stream_first (s : OutState) : Bool :=
  s.fifo.read_data / 512 % 2 == 1

/-- Combinational FIFO `read_en` (stream.py line 381). -/
def read_en (i : OutInput) : Bool :=
  i.stream_ready

/-- One clock edge of the OUT endpoint: `is_first_byte` latches the stream's
`last` bit on every consumer transfer (stream.py lines 322-323),
`expected_data_toggle` flips when a data response is requested and the packet
is okay to receive (stream.py lines 386-387), and the FIFO performs the cycle
its ports request. -/
def outStep (cfg : OutConfig) (s : OutState) (i : OutInput) : OutState :=
  { is_first_byte :=
      if stream_valid s && i.stream_ready then stream_last s else s.is_first_byte
    expected_data_toggle :=
      if data_response_requested cfg i && okay_to_receive cfg s i then
        !s.expected_data_toggle
      else s.expected_data_toggle
    fifo :=
      s.fifo.cycle (write_en cfg s i) (write_data i)
        (write_commit cfg i) (write_discard cfg i) (read_en i) }

/-- Iterated `outStep` over a list of per-cycle inputs. -/
def runState (cfg : OutConfig) (s : OutState) (is : List OutInput) : OutState :=
  is.foldl (outStep cfg) s

/-- A run in which every cycle is an accepted data packet event: a data
response is requested and `okay_to_receive` holds at each step. -/
def acceptingRun (cfg : OutConfig) : OutState → List OutInput → Prop
  | _, [] => True
  | s, i :: rest =>
      (data_response_requested cfg i && okay_to_receive cfg s i) = true ∧
      acceptingRun cfg (outStep cfg s i) rest

/-- A run in which every cycle is a toggle-mismatch skip event for this
endpoint. -/
def skippingRun (cfg : OutConfig) : OutState → List OutInput → Prop
  | _, [] => True
  | s, i :: rest =>
      should_skip cfg s i = true ∧ skippingRun cfg (outStep cfg s i) rest

/-- The externally observable outputs of the OUT endpoint on one cycle. -/
structure OutObs where
  ack : Bool
  nak : Bool
  stream_valid : Bool
  stream_payload : Nat
  stream_first : Bool
  stream_last : Bool
deriving DecidableEq, Repr

/-- The observable outputs produced from a state and a cycle input. -/
def outObs (cfg : OutConfig) (s : OutState) (i : OutInput) : OutObs :=
  { ack := ack cfg s i
    nak := nak cfg s i
    stream_valid := stream_valid s
    stream_payload := stream_payload s
    stream_first := stream_first s
    stream_last := stream_last s }

/-- The trace of observable outputs along a run. -/
def outTrace (cfg : OutConfig) : OutState → List OutInput → List OutObs
  | _, [] => []
  | s, i :: rest => outObs cfg s i :: outTrace cfg (outStep cfg s i) rest

end OutEndpoint

/-- The combinational configuration that `USBStreamInEndpoint.elaborate` drives
into its `USBInTransferManager` (stream.py lines 73-79): `generate_zlps` is
tied to 1, and `active` holds exactly when the current token's endpoint number
matches this endpoint's. -/
structure TxManagerConfig where
  generate_zlps : Bool
  active : Bool
deriving DecidableEq, Repr

/-- `USBStreamInEndpoint.elaborate`'s transfer-manager configuration, as a
function of the endpoint number fixed at construction and the tokenizer's
current endpoint field. -/
def USBStreamInEndpoint.txConfig (endpoint_number tok_endpoint : Nat) : TxManagerConfig :=
  { generate_zlps := true
    active := tok_endpoint == endpoint_number }

/-- Modelled from the spec: the ZLP-insertion rule of the `USBInTransferManager`
(`luna/gateware/usb/usb2/transfer.py`, not part of the source excerpt).  When
`generate_zlps` is asserted and the final chunk of a logical transfer exactly
fills a max-size packet, one additional zero-length packet is transmitted; a
transfer ending in a strictly short packet needs none. -/
def zlpsAfterTransfer (generate_zlps : Bool) (total_len max_packet_size : Nat) : Nat :=
  if generate_zlps && (total_len % max_packet_size == 0) then 1 else 0

/-- The two FSM states of `USBMultibyteStreamInEndpoint.elaborate`. -/
inductive AdapterFSM where
  | IDLE
  | TRANSMIT
deriving DecidableEq, Repr

/-- The registered state of the multibyte adapter: the FSM state, the shift
register `data_shift`, the latched `first`/`last` flags, and the
`bytes_to_send` counter. -/
structure AdapterState where
  fsm : AdapterFSM
  data_shift : Nat
  first_latched : Bool
  last_latched : Bool
  bytes_to_send : Nat
deriving DecidableEq, Repr

/-- Reset state of the adapter: FSM in `IDLE`, all registers zero. -/
def initAdapter : AdapterState :=
  { fsm := .IDLE, data_shift := 0, first_latched := false, last_latched := false
    bytes_to_send := 0 }

/-- One word offered on the adapter's input stream. -/
structure WordIn where
  payload : Nat
  first : Bool
  last : Bool
deriving DecidableEq, Repr

/-- One byte transferred on the inner byte stream. -/
structure ByteOut where
  payload : Nat
  first : Bool
  last : Bool
deriving DecidableEq, Repr

/-- Loading the shift register from a word (`USBMultibyteStreamInEndpoint`,
stream.py lines 184-190 and 223-229): the `byte_width * 8`-bit register
truncates the payload, the `first`/`last` flags are latched, and the counter
is set to `byte_width - 1`. -/
def loadWord (W : Nat) (w : WordIn) : AdapterState :=
  { fsm := .TRANSMIT
    data_shift := w.payload % 2 ^ (8 * W)
    first_latched := w.first
    last_latched := w.last
    bytes_to_send := W - 1 }

/-- One cycle of the `USBMultibyteStreamInEndpoint` FSM under the schedule in
which the inner byte stream is always ready and the producer offers the words
of `ws` back to back (`word_stream.valid` iff words remain).  Returns the byte
transferred on the inner stream this cycle (if any), the next state, and the
remaining words.  In `IDLE` a valid word is latched; in `TRANSMIT` the low byte
of the shift register is transferred with `first`/`last` qualified to the first
and last byte of the word, then the register shifts right a byte and the
counter decrements, or — when the counter has reached zero — the next word is
latched if available, else the FSM returns to `IDLE`. -/
def adapterStep (W : Nat) (s : AdapterState) (ws : List WordIn) :
    Option ByteOut × AdapterState × List WordIn :=
  match s.fsm with
  | .IDLE =>
    match ws with
    | [] => (none, s, [])
    | w :: rest => (none, loadWord W w, rest)
  | .TRANSMIT =>
    let out : ByteOut :=
      { payload := s.data_shift % 256
        first := s.first_latched && (s.bytes_to_send == W - 1)
        last := s.last_latched && (s.bytes_to_send == 0) }
    if 0 < s.bytes_to_send then
      (some out,
       { s with bytes_to_send := s.bytes_to_send - 1, data_shift := s.data_shift / 256 },
       ws)
    else
      match ws with
      | w :: rest => (some out, loadWord W w, rest)
      | [] => (some out, { s with fsm := .IDLE }, [])

/-- The list of bytes transferred on the inner stream over `fuel` cycles of
`adapterStep`. -/
def adapterRun (W : Nat) : Nat → AdapterState → List WordIn → List ByteOut
  | 0, _, _ => []
  | fuel + 1, s, ws =>
    match adapterStep W s ws with
    | (o, s2, ws2) => o.toList ++ adapterRun W fuel s2 ws2

/-- The bytes the adapter transmits while counting `bytes_to_send` down from
`k` to 0 with shift register `d` and latched flags `fl`, `ll`: at each step the
low byte goes out, `first` holds exactly at counter value `W - 1` and `last`
exactly at counter value 0, and the register shifts right one byte. -/
def countdownTokens (W : Nat) (fl ll : Bool) : Nat → Nat → List ByteOut
  | d, 0 => [{ payload := d % 256, first := fl && (0 == W - 1), last := ll }]
  | d, k + 1 =>
      { payload := d % 256, first := fl && (k + 1 == W - 1), last := false } ::
        countdownTokens W fl ll (d / 256) k

/-- Specified byte sequence for one word: its `W` bytes in little-endian
order, `first` asserted only on byte 0 and `last` only on byte `W - 1`,
qualified by the word's own flags. -/
def wordBytes (W : Nat) (w : WordIn) : List ByteOut :=
  (List.range W).map fun j =>
    { payload := w.payload / 256 ^ j % 256
      first := w.first && (j == 0)
      last := w.last && (j == W - 1) }

/-- Specified byte sequence for a word list: the concatenation of each word's
little-endian bytes. -/
def expectedBytes (W : Nat) (ws : List WordIn) : List ByteOut :=
  (ws.map (wordBytes W)).flatten

/-- A concrete configuration used as a test vector: endpoint 1, maximum packet
size 8, buffer size 16 (the spec's concrete scenario). -/
def cfg0 : OutConfig := { endpoint_number := 1, max_packet_size := 8, buffer_size := 16 }

/-- A concrete empty FIFO of depth 16. -/
def fifo0 : TransactionalizedFIFO := { depth := 16, committed := [], speculative := [] }

/-- A concrete reset state: `is_first_byte = 1`, toggle 0, empty FIFO. -/
def s0 : OutState :=
  { is_first_byte := true, expected_data_toggle := false, fifo := fifo0 }

/-- The reset state with the `is_first_byte` register inverted — used to
exhibit that the register has no observable influence. -/
def s0flip : OutState :=
  { is_first_byte := false, expected_data_toggle := false, fifo := fifo0 }

/-- A concrete state whose FIFO has committed data and a speculative entry. -/
def s1 : OutState :=
  { is_first_byte := true, expected_data_toggle := false
    fifo := { depth := 16, committed := [65, 66], speculative := [67] } }

/-- A concrete state agreeing with `s1` on the committed FIFO contents but not
on the speculative ones. -/
def s1b : OutState :=
  { is_first_byte := true, expected_data_toggle := false
    fifo := { depth := 16, committed := [65, 66], speculative := [] } }

/-- A concrete cycle input on which the host delivers an in-sequence OUT data
packet to endpoint 1 and requests a data response: the endpoint accepts. -/
def accInput : OutInput :=
  { tokenizer := { endpoint := 1, is_out := true, is_ping := false, ready_for_response := false }
    rx_pid_toggle := false, rx_ready_for_response := true
    rx_payload := 0, rx_valid := false, rx_next := false
    rx_first := false, rx_last := false
    complete_out := false, invalid_out := false, stream_ready := false }

/-- A concrete cycle input identical to `accInput` except that the received
DATA PID is 1 while toggle 0 is expected: a duplicate-packet (skip) event. -/
def skipInput : OutInput :=
  { tokenizer := { endpoint := 1, is_out := true, is_ping := false, ready_for_response := false }
    rx_pid_toggle := true, rx_ready_for_response := true
    rx_payload := 0, rx_valid := false, rx_next := false
    rx_first := false, rx_last := false
    complete_out := false, invalid_out := false, stream_ready := false }

/-- A concrete cycle input like `accInput` but with a receive byte actually
advancing this cycle (`rx.valid` and `rx.next` asserted, payload 65). -/
def recvInput : OutInput :=
  { tokenizer := { endpoint := 1, is_out := true, is_ping := false, ready_for_response := false }
    rx_pid_toggle := false, rx_ready_for_response := false
    rx_payload := 65, rx_valid := true, rx_next := true
    rx_first := true, rx_last := false
    complete_out := false, invalid_out := false, stream_ready := false }

/-- A concrete cycle input carrying a PING token for endpoint 1. -/
def pingInput : OutInput :=
  { tokenizer := { endpoint := 1, is_out := false, is_ping := true, ready_for_response := true }
    rx_pid_toggle := false, rx_ready_for_response := false
    rx_payload := 0, rx_valid := false, rx_next := false
    rx_first := false, rx_last := false
    complete_out := false, invalid_out := false, stream_ready := false }

/-- A concrete cycle input whose tokenizer view flags the token as both OUT
and PING, with a mismatched DATA PID: the degenerate case distinguishing the
code's NAK condition from the specified one. -/
def hybridInput : OutInput :=
  { tokenizer := { endpoint := 1, is_out := true, is_ping := true, ready_for_response := true }
    rx_pid_toggle := true, rx_ready_for_response := false
    rx_payload := 0, rx_valid := false, rx_next := false
    rx_first := false, rx_last := false
    complete_out := false, invalid_out := false, stream_ready := false }

end LunaStream

namespace LunaStream

open OutEndpoint TransactionalizedFIFO

/-- C9: the OUT endpoint never asserts ACK and NAK on the same cycle, provided
the tokenizer never flags the current token as both an OUT token and a PING
token. -/
theorem spec_C9_ack_nak_mutually_exclusive (cfg : OutConfig) (s : OutState) (i : OutInput)
    (h : ¬(i.tokenizer.is_out = true ∧ i.tokenizer.is_ping = true)) :
    ¬(OutEndpoint.ack cfg s i = true ∧ nak cfg s i = true) := by
  rcases i with ⟨⟨ep, o, p, rfr⟩, pid, rxr, pay, rv, rn, rf, rl, co, inv, sr⟩
  cases hem : (ep == cfg.endpoint_number) <;>
    cases o <;> cases p <;> cases rfr <;> cases rxr <;>
    cases hss : sufficient_space cfg s <;>
    cases hpm : (pid == s.expected_data_toggle) <;>
    simp_all [OutEndpoint.ack, nak, data_response_requested, ping_response_requested,
      okay_to_receive, should_skip, targeting_endpoint, endpoint_number_matches,
      expected_pid_match, sufficient_space]

/-- C9 witness: concretely, on a pure PING token the endpoint does not assert
ACK and NAK together. -/
theorem spec_C9_witness :
    ¬(pingInput.tokenizer.is_out = true ∧ pingInput.tokenizer.is_ping = true) ∧
    ¬(OutEndpoint.ack cfg0 s0 pingInput = true ∧ nak cfg0 s0 pingInput = true) :=
  ⟨by decide, spec_C9_ack_nak_mutually_exclusive cfg0 s0 pingInput (by decide)⟩

/-- C3 counterexample: on a (degenerate) token flagged both OUT and PING with a
mismatched DATA PID, the code asserts NAK although the claimed characterization
— a response requested, acceptance failing, and not a toggle-mismatch skip
case — evaluates to false, so the claimed NAK if-and-only-if fails as stated. -/
theorem spec_C3_counterexample :
    ¬(nak cfg0 s0 hybridInput = true ↔
      ((data_response_requested cfg0 hybridInput || ping_response_requested cfg0 hybridInput) &&
        !okay_to_receive cfg0 s0 hybridInput && !should_skip cfg0 s0 hybridInput) = true) := by
  decide

/-- C3 (amended): provided the tokenizer never flags a token as both OUT and
PING, the endpoint asserts ACK exactly when a data response is requested and
the packet is okay to receive, or a ping response is requested and the packet
is okay to receive, or a data response is requested for a toggle-mismatched
(skip) packet; and asserts NAK exactly when a response (data or ping) was
requested, the packet is not okay to receive, and it is not a toggle-mismatch
skip case. -/
theorem spec_C3_ack_nak_characterization (cfg : OutConfig) (s : OutState) (i : OutInput)
    (h : ¬(i.tokenizer.is_out = true ∧ i.tokenizer.is_ping = true)) :
    (OutEndpoint.ack cfg s i =
      ((data_response_requested cfg i && okay_to_receive cfg s i) ||
       (ping_response_requested cfg i && okay_to_receive cfg s i) ||
       (data_response_requested cfg i && should_skip cfg s i))) ∧
    (nak cfg s i =
      ((data_response_requested cfg i || ping_response_requested cfg i) &&
        !okay_to_receive cfg s i && !should_skip cfg s i)) := by
  refine ⟨rfl, ?_⟩
  rcases i with ⟨⟨ep, o, p, rfr⟩, pid, rxr, pay, rv, rn, rf, rl, co, inv, sr⟩
  cases hem : (ep == cfg.endpoint_number) <;>
    cases o <;> cases p <;> cases rfr <;> cases rxr <;>
    cases hss : sufficient_space cfg s <;>
    cases hpm : (pid == s.expected_data_toggle) <;>
    simp_all [nak, data_response_requested, ping_response_requested,
      okay_to_receive, should_skip, targeting_endpoint, endpoint_number_matches,
      expected_pid_match, sufficient_space]

/-- C3 witness: the amended characterization applied to a concrete skip event
on endpoint 1. -/
theorem spec_C3_witness :
    nak cfg0 s0 skipInput =
      ((data_response_requested cfg0 skipInput || ping_response_requested cfg0 skipInput) &&
        !okay_to_receive cfg0 s0 skipInput && !should_skip cfg0 s0 skipInput) :=
  (spec_C3_ack_nak_characterization cfg0 s0 skipInput (by decide)).2

/-- C8 counterexample: constructing the OUT endpoint with a buffer size of 4
and a maximum packet size of 8 succeeds and yields a configuration whose
buffer is smaller than one maximum packet — no construction-time rejection
occurs. -/
theorem spec_C8_counterexample :
    (USBStreamOutEndpoint.init 1 8 (some 4)).buffer_size = 4 ∧
    (USBStreamOutEndpoint.init 1 8 (some 4)).buffer_size <
      (USBStreamOutEndpoint.init 1 8 (some 4)).max_packet_size := by
  decide

/-- C8 (amended): the constructor performs no validation — any requested
buffer size is accepted verbatim, including one smaller than the maximum
packet size — and when no buffer size is given it defaults to twice the
maximum packet size. -/
theorem spec_C8_constructor_defaults (n mps b : Nat) :
    (USBStreamOutEndpoint.init n mps none).buffer_size = mps * 2 ∧
    (USBStreamOutEndpoint.init n mps (some b)).buffer_size = b ∧
    (USBStreamOutEndpoint.init n mps (some b)).max_packet_size = mps := by
  exact ⟨rfl, rfl, rfl⟩

/-- C7: the byte-stream IN endpoint ties `generate_zlps` to 1 on its transfer
manager, so a transfer whose total length is an exact multiple of the maximum
packet size is followed by exactly one zero-length packet, while a transfer
whose final packet is strictly short is followed by none. -/
theorem spec_C7_generate_zlps (ep tok total_len mps : Nat) :
    (USBStreamInEndpoint.txConfig ep tok).generate_zlps = true ∧
    (total_len % mps = 0 →
      zlpsAfterTransfer (USBStreamInEndpoint.txConfig ep tok).generate_zlps total_len mps = 1) ∧
    (total_len % mps ≠ 0 →
      zlpsAfterTransfer (USBStreamInEndpoint.txConfig ep tok).generate_zlps total_len mps = 0) := by
  refine ⟨rfl, ?_, ?_⟩ <;> intro h <;>
    simp [zlpsAfterTransfer, USBStreamInEndpoint.txConfig, h]

/-- C7 witness: a 16-byte transfer at maximum packet size 8 is followed by one
ZLP; a 13-byte transfer is followed by none. -/
theorem spec_C7_witness :
    zlpsAfterTransfer (USBStreamInEndpoint.txConfig 1 1).generate_zlps 16 8 = 1 ∧
    zlpsAfterTransfer (USBStreamInEndpoint.txConfig 1 1).generate_zlps 13 8 = 0 :=
  ⟨(spec_C7_generate_zlps 1 1 16 8).2.1 (by decide),
   (spec_C7_generate_zlps 1 1 13 8).2.2 (by decide)⟩

/-- Along a run of accepted data packets the expected data toggle alternates:
after the run it equals the initial toggle xor-ed with the parity of the number
of acceptances. -/
theorem acceptingRun_toggle_parity (cfg : OutConfig) (is : List OutInput) :
    ∀ s : OutState, acceptingRun cfg s is →
      (runState cfg s is).expected_data_toggle
        = Bool.xor s.expected_data_toggle (decide (is.length % 2 = 1)) := by
  induction is with
  | nil =>
    intro s _
    simp [runState, List.foldl]
  | cons i rest ih =>
    intro s h
    obtain ⟨hacc, hrest⟩ := h
    have hstep : (outStep cfg s i).expected_data_toggle = !s.expected_data_toggle := by
      simp [outStep, hacc]
    have hrun : runState cfg s (i :: rest) = runState cfg (outStep cfg s i) rest := rfl
    rw [hrun, ih _ hrest, hstep]
    have hpar : decide ((i :: rest).length % 2 = 1) = !decide (rest.length % 2 = 1) := by
      rcases Nat.mod_two_eq_zero_or_one rest.length with h2 | h2
      · have h3 : (rest.length + 1) % 2 = 1 := by omega
        simp [List.length_cons, h2, h3]
      · have h3 : (rest.length + 1) % 2 = 0 := by omega
        simp [List.length_cons, h2, h3]
    rw [hpar]
    cases s.expected_data_toggle <;> cases hd : decide (rest.length % 2 = 1) <;> simp

/-- C1: the expected data toggle flips exactly on cycles where a data response
is requested and the packet is okay to receive; it is unchanged on skip-but-ack
and NAK cycles; and along any run of consecutive acceptances the recorded
toggle equals the initial toggle xor-ed with the number of acceptances mod 2. -/
theorem spec_C1_toggle_flip (cfg : OutConfig) (s : OutState) (i : OutInput) :
    (((outStep cfg s i).expected_data_toggle != s.expected_data_toggle)
        = (data_response_requested cfg i && okay_to_receive cfg s i)) ∧
    (should_skip cfg s i = true →
        (outStep cfg s i).expected_data_toggle = s.expected_data_toggle) ∧
    (nak cfg s i = true →
        (outStep cfg s i).expected_data_toggle = s.expected_data_toggle) ∧
    (∀ is : List OutInput, acceptingRun cfg s is →
        (runState cfg s is).expected_data_toggle
          = Bool.xor s.expected_data_toggle (decide (is.length % 2 = 1))) := by
  refine ⟨?_, ?_, ?_, fun is h => acceptingRun_toggle_parity cfg is s h⟩
  · cases hc : (data_response_requested cfg i && okay_to_receive cfg s i) <;>
      cases ht : s.expected_data_toggle <;>
      simp [outStep, hc, ht]
  · intro hskip
    have hpm : expected_pid_match s i = false := by
      rcases (Bool.and_eq_true _ _).mp hskip with ⟨-, h2⟩
      simpa using h2
    have hok : okay_to_receive cfg s i = false := by
      simp [okay_to_receive, hpm]
    simp [outStep, hok]
  · intro hnak
    simp only [nak, Bool.or_eq_true, Bool.and_eq_true, Bool.not_eq_true'] at hnak
    have hok : okay_to_receive cfg s i = false := by
      rcases hnak with ⟨⟨-, h3⟩, -⟩ | ⟨-, h3⟩ <;> exact h3
    simp [outStep, hok]

/-- C1 witness: from the reset state, a single concrete acceptance flips the
toggle to 1, matching initial-xor-parity. -/
theorem spec_C1_witness :
    acceptingRun cfg0 s0 [accInput] ∧
    (runState cfg0 s0 [accInput]).expected_data_toggle
      = Bool.xor s0.expected_data_toggle (decide (([accInput] : List OutInput).length % 2 = 1)) := by
  have hacc : acceptingRun cfg0 s0 [accInput] := by
    exact ⟨by decide, trivial⟩
  exact ⟨hacc, (spec_C1_toggle_flip cfg0 s0 accInput).2.2.2 [accInput] hacc⟩

/-- A discard erases a packet's speculative run entirely: discarding after any
sequence of speculative writes yields exactly the state that discarding the
empty run would have produced, so the written bytes can never be observed. -/
theorem writeMany_discard (f : TransactionalizedFIFO) (bs : List Nat) :
    (TransactionalizedFIFO.writeMany f bs).discard = f.discard := by
  induction bs generalizing f with
  | nil => rfl
  | cons b bs ih =>
    calc (TransactionalizedFIFO.writeMany f (b :: bs)).discard
        = (TransactionalizedFIFO.writeMany (f.writePush b) bs).discard := rfl
      _ = (f.writePush b).discard := ih _
      _ = f.discard := rfl

/-- C2: a packet whose integrity check fails is wholly erased — after the
discard the FIFO state is as if the packet's bytes had never been written, and
the consumer-facing stream outputs are a function of the committed entries
alone; the speculative run is committed exactly when the boundary detector
reports complete with the token targeting this endpoint, and discarded exactly
when it reports invalid with the token targeting this endpoint. -/
theorem spec_C2_discard_isolation (cfg : OutConfig) :
    (∀ (f : TransactionalizedFIFO) (bs : List Nat),
       (TransactionalizedFIFO.writeMany f bs).discard = f.discard) ∧
    (∀ s1 s2 : OutState, s1.fifo.committed = s2.fifo.committed →
       stream_valid s1 = stream_valid s2 ∧ stream_payload s1 = stream_payload s2 ∧
       stream_first s1 = stream_first s2 ∧ stream_last s1 = stream_last s2) ∧
    (∀ i : OutInput,
       write_commit cfg i = (targeting_endpoint cfg i && i.complete_out) ∧
       write_discard cfg i = (targeting_endpoint cfg i && i.invalid_out)) := by
  refine ⟨fun f bs => writeMany_discard f bs, ?_, fun i => ⟨rfl, rfl⟩⟩
  intro s1 s2 h
  refine ⟨?_, ?_, ?_, ?_⟩ <;>
    simp [stream_valid, stream_payload, stream_first, stream_last,
      TransactionalizedFIFO.empty, TransactionalizedFIFO.read_data, h]

/-- C2 witness: concretely, writing three bytes and discarding equals
discarding alone, and two states agreeing on committed contents produce the
same consumer payload. -/
theorem spec_C2_witness :
    (TransactionalizedFIFO.writeMany fifo0 [1, 2, 3]).discard = fifo0.discard ∧
    stream_payload s1 = stream_payload s1b :=
  ⟨(spec_C2_discard_isolation cfg0).1 fifo0 [1, 2, 3],
   ((spec_C2_discard_isolation cfg0).2.1 s1 s1b (by decide)).2.1⟩

/-- One toggle-mismatch skip cycle writes nothing: the write enable is low, the
speculative run stays empty, the committed contents at most lose their head to
the consumer, and the toggle is unchanged. -/
theorem skip_step_fifo (cfg : OutConfig) (s : OutState) (i : OutInput)
    (hskip : should_skip cfg s i = true) (hspec : s.fifo.speculative = []) :
    write_en cfg s i = false ∧
    (outStep cfg s i).fifo.speculative = [] ∧
    ((outStep cfg s i).fifo.committed = s.fifo.committed ∨
     (outStep cfg s i).fifo.committed = s.fifo.committed.tail) ∧
    (outStep cfg s i).expected_data_toggle = s.expected_data_toggle := by
  have hpm : expected_pid_match s i = false := by
    rcases (Bool.and_eq_true _ _).mp hskip with ⟨-, h2⟩
    simpa using h2
  have hok : okay_to_receive cfg s i = false := by
    simp [okay_to_receive, hpm]
  have hwe : write_en cfg s i = false := by
    simp [write_en, hok]
  refine ⟨hwe, ?_, ?_, by simp [outStep, hok]⟩ <;>
  · simp only [outStep, TransactionalizedFIFO.cycle, hwe]
    cases hwc : write_commit cfg i <;> cases hwd : write_discard cfg i <;>
      cases hre : (read_en i && !s.fifo.empty) <;>
      simp [TransactionalizedFIFO.commit, TransactionalizedFIFO.discard,
        TransactionalizedFIFO.readAdvance, hspec]

/-- Along a run of toggle-mismatch skip cycles, a packet run that starts with
an empty speculative buffer contributes no bytes: the speculative buffer stays
empty, the committed contents only ever shrink from the front, and the toggle
is unchanged. -/
theorem skippingRun_no_new_bytes (cfg : OutConfig) (is : List OutInput) :
    ∀ s : OutState, skippingRun cfg s is → s.fifo.speculative = [] →
      (runState cfg s is).fifo.speculative = [] ∧
      (∃ t, s.fifo.committed = t ++ (runState cfg s is).fifo.committed) ∧
      (runState cfg s is).expected_data_toggle = s.expected_data_toggle := by
  induction is with
  | nil =>
    intro s _ hspec
    exact ⟨hspec, ⟨[], rfl⟩, rfl⟩
  | cons i rest ih =>
    intro s h hspec
    obtain ⟨hskip, hrest⟩ := h
    obtain ⟨-, hspec2, hcom, htog⟩ := skip_step_fifo cfg s i hskip hspec
    have hrun : runState cfg s (i :: rest) = runState cfg (outStep cfg s i) rest := rfl
    obtain ⟨h1, ⟨t, h2⟩, h3⟩ := ih (outStep cfg s i) hrest hspec2
    rw [hrun]
    refine ⟨h1, ?_, h3.trans htog⟩
    rcases hcom with hc | hc
    · exact ⟨t, by rw [← hc]; exact h2⟩
    · refine ⟨s.fifo.committed.take 1 ++ t, ?_⟩
      rw [List.append_assoc, ← h2, hc, ← List.drop_one, List.take_append_drop]

/-- C4: a duplicate OUT packet (received DATA PID differing from the expected
toggle) is acknowledged yet writes nothing into the FIFO: on every skip cycle
the write enable is low and ACK is asserted when a data response is requested,
and over any run of skip cycles starting with an empty speculative buffer the
speculative buffer stays empty, the committed stream gains no bytes, and the
toggle is unchanged — duplicate delivery is idempotent for the consumer. -/
theorem spec_C4_duplicate_idempotent (cfg : OutConfig) (s : OutState) :
    (∀ i : OutInput, should_skip cfg s i = true →
       write_en cfg s i = false ∧
       (data_response_requested cfg i = true → OutEndpoint.ack cfg s i = true)) ∧
    (∀ is : List OutInput, skippingRun cfg s is → s.fifo.speculative = [] →
       (runState cfg s is).fifo.speculative = [] ∧
       (∃ t, s.fifo.committed = t ++ (runState cfg s is).fifo.committed) ∧
       (runState cfg s is).expected_data_toggle = s.expected_data_toggle) := by
  refine ⟨?_, fun is h hspec => skippingRun_no_new_bytes cfg is s h hspec⟩
  intro i hskip
  have hpm : expected_pid_match s i = false := by
    rcases (Bool.and_eq_true _ _).mp hskip with ⟨-, h2⟩
    simpa using h2
  have hok : okay_to_receive cfg s i = false := by
    simp [okay_to_receive, hpm]
  refine ⟨by simp [write_en, hok], fun hd => ?_⟩
  simp [OutEndpoint.ack, hd, hskip]

/-- C4 witness: a concrete duplicate packet at the reset state is skipped:
ACKed, no write, nothing new committed. -/
theorem spec_C4_witness :
    should_skip cfg0 s0 skipInput = true ∧
    write_en cfg0 s0 skipInput = false ∧
    OutEndpoint.ack cfg0 s0 skipInput = true ∧
    (runState cfg0 s0 [skipInput]).fifo.speculative = [] ∧
    (∃ t, s0.fifo.committed = t ++ (runState cfg0 s0 [skipInput]).fifo.committed) := by
  have hskip : should_skip cfg0 s0 skipInput = true := by decide
  have hrun : skippingRun cfg0 s0 [skipInput] := ⟨hskip, trivial⟩
  obtain ⟨ha, hb⟩ := spec_C4_duplicate_idempotent cfg0 s0
  obtain ⟨h1, h2⟩ := ha skipInput hskip
  obtain ⟨h3, h4, -⟩ := hb [skipInput] hrun (by decide)
  exact ⟨hskip, h1, h2 (by decide), h3, h4⟩

/-- The read-enable input of a FIFO cycle has no effect on the speculative
entries: reading only touches the committed side. -/
theorem cycle_speculative_ignores_read (f : TransactionalizedFIFO) (we : Bool) (wd : Nat)
    (wc wdisc re1 re2 : Bool) :
    (f.cycle we wd wc wdisc re1).speculative = (f.cycle we wd wc wdisc re2).speculative := by
  simp only [TransactionalizedFIFO.cycle]
  cases h1 : (re1 && !f.empty) <;> cases h2 : (re2 && !f.empty) <;>
    simp [TransactionalizedFIFO.readAdvance]

/-- C6: consumer backpressure only stalls the FIFO's read side — the read
enable is exactly the consumer's ready; with ready low the committed contents
are only appended to (nothing dropped or reordered); the receiver-side
outputs and state are unaffected by the consumer's ready; and a byte is
accepted only while a full max-size packet still fits (`sufficient_space`). -/
theorem spec_C6_backpressure (cfg : OutConfig) (s : OutState) (i : OutInput) (r : Bool) :
    read_en i = i.stream_ready ∧
    (i.stream_ready = false →
       ∃ t, (outStep cfg s i).fifo.committed = s.fifo.committed ++ t) ∧
    (write_en cfg s { i with stream_ready := r } = write_en cfg s i ∧
     OutEndpoint.ack cfg s { i with stream_ready := r } = OutEndpoint.ack cfg s i ∧
     nak cfg s { i with stream_ready := r } = nak cfg s i ∧
     write_commit cfg { i with stream_ready := r } = write_commit cfg i ∧
     write_discard cfg { i with stream_ready := r } = write_discard cfg i ∧
     (outStep cfg s { i with stream_ready := r }).fifo.speculative
        = (outStep cfg s i).fifo.speculative ∧
     (outStep cfg s { i with stream_ready := r }).expected_data_toggle
        = (outStep cfg s i).expected_data_toggle) ∧
    (write_en cfg s i = true → sufficient_space cfg s = true) := by
  refine ⟨rfl, ?_, ⟨rfl, rfl, rfl, rfl, rfl, ?_, rfl⟩, ?_⟩
  · intro hr
    simp only [outStep, TransactionalizedFIFO.cycle, read_en, hr, Bool.false_and,
      Bool.if_false_left, Bool.and_eq_true]
    cases hwe : write_en cfg s i <;> cases hwc : write_commit cfg i <;>
      cases hwd : write_discard cfg i <;>
      simp [TransactionalizedFIFO.commit, TransactionalizedFIFO.discard,
        TransactionalizedFIFO.writePush]
  · have hl : (outStep cfg s { i with stream_ready := r }).fifo
        = s.fifo.cycle (write_en cfg s i) (write_data i)
            (write_commit cfg i) (write_discard cfg i) r := rfl
    have hr2 : (outStep cfg s i).fifo
        = s.fifo.cycle (write_en cfg s i) (write_data i)
            (write_commit cfg i) (write_discard cfg i) (read_en i) := rfl
    rw [hl, hr2]
    exact cycle_speculative_ignores_read s.fifo _ _ _ _ r (read_en i)
  · intro hwe
    simp only [write_en, Bool.and_eq_true] at hwe
    have hok := hwe.1.1
    simp only [okay_to_receive, Bool.and_eq_true] at hok
    exact hok.1.2

/-- C6 witness: with the consumer not ready on a concrete accepted byte the
committed contents are only appended to, and a concretely accepted byte
implies sufficient space. -/
theorem spec_C6_witness :
    (∃ t, (outStep cfg0 s1 accInput).fifo.committed = s1.fifo.committed ++ t) ∧
    sufficient_space cfg0 s0 = true :=
  ⟨(spec_C6_backpressure cfg0 s1 accInput true).2.1 (by decide),
   (spec_C6_backpressure cfg0 s0 recvInput true).2.2.2 (by decide)⟩

/-- C10: the `is_first_byte` register has no influence on any observable output
of the OUT endpoint — two runs from states that agree on the toggle and the
FIFO but differ arbitrarily in `is_first_byte` produce identical output traces
(ACK, NAK, and the consumer stream's valid, payload, first, and last). -/
theorem spec_C10_is_first_byte_no_influence (cfg : OutConfig) (s1 s2 : OutState)
    (ht : s1.expected_data_toggle = s2.expected_data_toggle)
    (hf : s1.fifo = s2.fifo) (is : List OutInput) :
    outTrace cfg s1 is = outTrace cfg s2 is := by
  induction is generalizing s1 s2 with
  | nil => rfl
  | cons i rest ih =>
    rcases s1 with ⟨a1, t1, f1⟩
    rcases s2 with ⟨a2, t2, f2⟩
    obtain rfl : t1 = t2 := ht
    obtain rfl : f1 = f2 := hf
    have hobs : outObs cfg ⟨a1, t1, f1⟩ i = outObs cfg ⟨a2, t1, f1⟩ i := rfl
    have htail := ih (outStep cfg ⟨a1, t1, f1⟩ i) (outStep cfg ⟨a2, t1, f1⟩ i) rfl rfl
    calc outTrace cfg ⟨a1, t1, f1⟩ (i :: rest)
        = outObs cfg ⟨a1, t1, f1⟩ i :: outTrace cfg (outStep cfg ⟨a1, t1, f1⟩ i) rest := rfl
      _ = outObs cfg ⟨a2, t1, f1⟩ i :: outTrace cfg (outStep cfg ⟨a2, t1, f1⟩ i) rest := by
          rw [hobs, htail]
      _ = outTrace cfg ⟨a2, t1, f1⟩ (i :: rest) := rfl

/-- With no input words the adapter idles and transmits nothing, whatever the
residual register contents. -/
theorem adapterRun_idle_nil (W : Nat) :
    ∀ (fuel d : Nat) (fl ll : Bool) (k : Nat),
    adapterRun W fuel ⟨.IDLE, d, fl, ll, k⟩ [] = [] := by
  intro fuel
  induction fuel with
  | zero => intro d fl ll k; rfl
  | succ n ih =>
    intro d fl ll k
    show ([] : List ByteOut) ++ adapterRun W n ⟨.IDLE, d, fl, ll, k⟩ [] = []
    rw [List.nil_append, ih]

/-- One-cycle unfolding of `adapterRun`. -/
theorem adapterRun_succ (W fuel : Nat) (s : AdapterState) (ws : List WordIn) :
    adapterRun W (fuel + 1) s ws =
      (adapterStep W s ws).1.toList ++
        adapterRun W fuel (adapterStep W s ws).2.1 (adapterStep W s ws).2.2 := rfl

/-- In `IDLE` with a word available, the adapter latches it and emits nothing. -/
theorem adapterStep_idle_cons (W d : Nat) (fl ll : Bool) (k : Nat) (w : WordIn)
    (rest : List WordIn) :
    adapterStep W ⟨.IDLE, d, fl, ll, k⟩ (w :: rest) = (none, loadWord W w, rest) := rfl

/-- In `TRANSMIT` with a positive counter, the adapter emits the low byte,
shifts, and decrements. -/
theorem adapterStep_transmit_succ (W d : Nat) (fl ll : Bool) (k : Nat) (ws : List WordIn) :
    adapterStep W ⟨.TRANSMIT, d, fl, ll, k + 1⟩ ws =
      (some { payload := d % 256, first := fl && (k + 1 == W - 1), last := ll && (k + 1 == 0) },
       ⟨.TRANSMIT, d / 256, fl, ll, k⟩, ws) := by
  simp [adapterStep]

/-- In `TRANSMIT` at counter zero with no further word, the adapter emits the
final byte and returns to `IDLE`. -/
theorem adapterStep_transmit_zero_nil (W d : Nat) (fl ll : Bool) :
    adapterStep W ⟨.TRANSMIT, d, fl, ll, 0⟩ [] =
      (some { payload := d % 256, first := fl && (0 == W - 1), last := ll && (0 == 0) },
       ⟨.IDLE, d, fl, ll, 0⟩, []) := rfl

/-- In `TRANSMIT` at counter zero with a next word available, the adapter
emits the final byte and reloads in the same cycle. -/
theorem adapterStep_transmit_zero_cons (W d : Nat) (fl ll : Bool) (w : WordIn)
    (rest : List WordIn) :
    adapterStep W ⟨.TRANSMIT, d, fl, ll, 0⟩ (w :: rest) =
      (some { payload := d % 256, first := fl && (0 == W - 1), last := ll && (0 == 0) },
       loadWord W w, rest) := rfl

/-- Transmitting from counter `k` emits the countdown tokens of the loaded
word and then continues with the next word (or stops when none remain). -/
theorem adapterRun_transmit (W : Nat) (fl ll : Bool) :
    ∀ (k d : Nat) (ws : List WordIn) (fuel : Nat),
    adapterRun W (fuel + k + 1) ⟨.TRANSMIT, d, fl, ll, k⟩ ws =
      countdownTokens W fl ll d k ++
        (match ws with
         | [] => ([] : List ByteOut)
         | w :: rest => adapterRun W fuel (loadWord W w) rest) := by
  intro k
  induction k with
  | zero =>
    intro d ws fuel
    rw [adapterRun_succ]
    cases ws with
    | nil =>
      rw [adapterStep_transmit_zero_nil]
      simp [countdownTokens, adapterRun_idle_nil]
    | cons w rest =>
      rw [adapterStep_transmit_zero_cons]
      simp [countdownTokens, Nat.add_zero]
  | succ k ih =>
    intro d ws fuel
    rw [adapterRun_succ, adapterStep_transmit_succ]
    dsimp only [Option.toList]
    rw [show fuel + (k + 1) = fuel + k + 1 from (Nat.add_assoc fuel k 1).symm]
    rw [ih]
    have h0 : (k + 1 == 0) = false := by simp
    simp [countdownTokens, h0]

/-- The countdown tokens written as a range map: the byte emitted at step `j`
is the `j`-th little-endian byte of the register, with `first` at counter
value `W - 1` and `last` at counter value 0. -/
theorem countdownTokens_eq_range (W : Nat) (fl ll : Bool) :
    ∀ (k d : Nat),
    countdownTokens W fl ll d k =
      (List.range (k + 1)).map (fun j =>
        ({ payload := d / 256 ^ j % 256
           first := fl && (k - j == W - 1)
           last := ll && (k - j == 0) } : ByteOut)) := by
  intro k
  induction k with
  | zero =>
    intro d
    simp [countdownTokens, List.range_succ]
  | succ k ih =>
    intro d
    simp only [countdownTokens]
    rw [List.range_succ_eq_map (k + 1), List.map_cons, List.map_map]
    rw [ih (d / 256)]
    have h0 : (k + 1 == 0) = false := by simp
    congr 1
    · simp [h0]
    · apply List.map_congr_left
      intro j hj
      have hp : d / 256 / 256 ^ j = d / 256 ^ (j + 1) := by
        rw [Nat.div_div_eq_div_mul, pow_succ, Nat.mul_comm (256 ^ j) 256]
      have hsub : k + 1 - (j + 1) = k - j := by omega
      simp [Function.comp, hp, hsub]

/-- Starting the countdown at counter `W - 1` realizes the specified word
byte sequence: little-endian bytes with `first` only on byte 0 and `last`
only on byte `W - 1`. -/
theorem countdownTokens_eq_wordBytes (W : Nat) (hW : 1 ≤ W) (fl ll : Bool) (d : Nat) :
    countdownTokens W fl ll d (W - 1) =
      (List.range W).map (fun j =>
        ({ payload := d / 256 ^ j % 256
           first := fl && (j == 0)
           last := ll && (j == W - 1) } : ByteOut)) := by
  rw [countdownTokens_eq_range]
  have hW1 : W - 1 + 1 = W := by omega
  rw [hW1]
  apply List.map_congr_left
  intro j hj
  rw [List.mem_range] at hj
  have h1 : (W - 1 - j == W - 1) = (j == 0) := by
    by_cases hz : j = 0
    · subst hz; simp
    · have hne : W - 1 - j ≠ W - 1 := by omega
      simp [hz, hne]
  have h2 : (W - 1 - j == 0) = (j == W - 1) := by
    by_cases hw : j = W - 1
    · subst hw; simp
    · have hne : W - 1 - j ≠ 0 := by omega
      simp [hw, hne]
  rw [h1, h2]

/-- From a freshly loaded word, a sufficiently fueled run emits that word's
bytes followed by the bytes of all remaining words. -/
theorem adapterRun_loaded (W : Nat) (hW : 1 ≤ W) :
    ∀ (ws : List WordIn) (w : WordIn) (fuel : Nat),
    w.payload < 2 ^ (8 * W) → (∀ v ∈ ws, v.payload < 2 ^ (8 * W)) →
    adapterRun W (fuel + W * ws.length + W) (loadWord W w) ws =
      wordBytes W w ++ expectedBytes W ws := by
  intro ws
  induction ws with
  | nil =>
    intro w fuel hw _
    have harg : fuel + W * ([] : List WordIn).length + W = fuel + (W - 1) + 1 := by
      simp only [List.length_nil, Nat.mul_zero, Nat.add_zero]
      omega
    rw [harg]
    rw [show loadWord W w
        = (⟨.TRANSMIT, w.payload % 2 ^ (8 * W), w.first, w.last, W - 1⟩ : AdapterState) from rfl]
    rw [adapterRun_transmit, countdownTokens_eq_wordBytes W hW, Nat.mod_eq_of_lt hw]
    simp [wordBytes, expectedBytes]
  | cons v rest ih =>
    intro w fuel hw hvs
    have harg : fuel + W * (v :: rest).length + W
        = (fuel + W * rest.length + W) + (W - 1) + 1 := by
      simp only [List.length_cons, Nat.mul_succ]
      omega
    rw [harg]
    rw [show loadWord W w
        = (⟨.TRANSMIT, w.payload % 2 ^ (8 * W), w.first, w.last, W - 1⟩ : AdapterState) from rfl]
    rw [adapterRun_transmit, countdownTokens_eq_wordBytes W hW, Nat.mod_eq_of_lt hw]
    have hrec := ih v fuel (hvs v (by simp)) (fun u hu => hvs u (by simp [hu]))
    simp [wordBytes, expectedBytes, hrec]

/-- C5: feeding the multibyte IN adapter a sequence of `W`-byte words yields,
on the inner byte stream, exactly each word's bytes in little-endian order,
with `first` asserted only on byte 0 of a first-marked word and `last` only on
byte `W - 1` of a last-marked word, and neither on interior bytes; in
particular, when only the first word is first-marked and only the final word
last-marked, `first` appears only on byte 0 of the first word and `last` only
on the final byte of the last word. -/
theorem spec_C5_multibyte_roundtrip (W : Nat) (hW : 1 ≤ W) (ws : List WordIn)
    (hpay : ∀ w ∈ ws, w.payload < 2 ^ (8 * W)) (fuel : Nat) :
    adapterRun W (fuel + W * ws.length + 1) initAdapter ws = expectedBytes W ws := by
  cases ws with
  | nil =>
    rw [show initAdapter = (⟨.IDLE, 0, false, false, 0⟩ : AdapterState) from rfl]
    rw [adapterRun_idle_nil]
    simp [expectedBytes]
  | cons w rest =>
    have h1 : adapterRun W (fuel + W * (w :: rest).length + 1) initAdapter (w :: rest)
        = adapterRun W (fuel + W * (w :: rest).length) (loadWord W w) rest := rfl
    rw [h1]
    have h2 : fuel + W * (w :: rest).length = fuel + W * rest.length + W := by
      simp only [List.length_cons, Nat.mul_succ]
      omega
    rw [h2]
    rw [adapterRun_loaded W hW rest w fuel (hpay w (by simp)) (fun u hu => hpay u (by simp [hu]))]
    simp [expectedBytes]

/-- C5 witness: two concrete 16-bit words round-trip through the adapter into
their four little-endian bytes with the specified `first`/`last` marking. -/
theorem spec_C5_witness :
    adapterRun 2 (0 + 2 * ([⟨513, true, false⟩, ⟨1027, false, true⟩] : List WordIn).length + 1)
        initAdapter [⟨513, true, false⟩, ⟨1027, false, true⟩]
      = expectedBytes 2 [⟨513, true, false⟩, ⟨1027, false, true⟩] :=
  spec_C5_multibyte_roundtrip 2 (by decide) [⟨513, true, false⟩, ⟨1027, false, true⟩]
    (by decide) 0

/-- C10 witness: the reset state and the reset state with `is_first_byte`
inverted produce the same concrete two-cycle trace. -/
theorem spec_C10_witness :
    s0.expected_data_toggle = s0flip.expected_data_toggle ∧ s0.fifo = s0flip.fifo ∧
    outTrace cfg0 s0 [accInput, skipInput] = outTrace cfg0 s0flip [accInput, skipInput] :=
  ⟨rfl, rfl, spec_C10_is_first_byte_no_influence cfg0 s0 s0flip rfl rfl _⟩

end LunaStream
